import Mathlib

/-!
Verification development for the beauty-query multi-agent pipeline
(`app/agents/letta.py` and `app/services/rag_service.py`).

The embedding models the pure data flow of the pipeline faithfully:
Python dicts become insertion-ordered association lists with Python
`dict.__setitem__` / `dict.get` semantics, `json.loads` becomes a total
recursive-descent JSON decoder returning `Option`, agent/retriever calls
become environment functions returning `Except` (an `Except.error` models a
raised exception crossing that call boundary), and every orchestration
function is translated statement by statement from the source.
-/

/-- The left curly brace character (written via its code point so that brace
characters never appear literally in the file). -/
def lbrace : Char := Char.ofNat 123

/-- The right curly brace character. -/
def rbrace : Char := Char.ofNat 125

/-- A JSON value as produced by `json.loads`. Numbers are exact rationals:
the source only ever manipulates the literal `0.5`, which is exact. -/
inductive Json where
  | null
  | bool (b : Bool)
  | num (q : Rat)
  | str (s : String)
  | arr (elems : List Json)
  | obj (fields : List (String × Json))

/-- Python `d.get(k)` on an insertion-ordered dict without duplicate keys. -/
def dictGet (d : List (String × Json)) (k : String) : Option Json :=
  match d with
  | [] => none
  | (k2, v) :: rest => if k2 == k then some v else dictGet rest k

/-- Python `k in d`. -/
def dictHasKey (d : List (String × Json)) (k : String) : Bool :=
  (dictGet d k).isSome

/-- Python `d[k] = v`: updates the value in place if the key exists
(keeping its position), else appends the new binding. -/
def dictSet (d : List (String × Json)) (k : String) (v : Json) : List (String × Json) :=
  match d with
  | [] => [(k, v)]
  | (k2, v2) :: rest => if k2 == k then (k2, v) :: rest else (k2, v2) :: dictSet rest k v

/-- `d.get(k)` for the string-valued agent-id cache (`Dict[str, str]`). -/
def lookupS (d : List (String × String)) (k : String) : Option String :=
  match d with
  | [] => none
  | (k2, v) :: rest => if k2 == k then some v else lookupS rest k

/-- `d[k] = v` for the string-valued agent-id cache. -/
def insertS (d : List (String × String)) (k : String) (v : String) : List (String × String) :=
  match d with
  | [] => [(k, v)]
  | (k2, v2) :: rest => if k2 == k then (k2, v) :: rest else (k2, v2) :: insertS rest k v

/-- Python `s.find(c)` for a single character, as an `Option`al index
(`none` plays the role of `-1`). -/
def pyFindChar (s : String) (c : Char) : Option Nat :=
  s.toList.findIdx? (fun x => x == c)

/-- Python `s.rfind(c)`: index of the last occurrence, if any. -/
def pyRfindChar (s : String) (c : Char) : Option Nat :=
  match s.toList.reverse.findIdx? (fun x => x == c) with
  | some i => some (s.toList.length - 1 - i)
  | none => none

/-- Python slice `s[a:b]` for `0 ≤ a`, `0 ≤ b` (clamping semantics). -/
def pySlice (s : String) (a b : Nat) : String :=
  String.mk ((s.toList.drop a).take (b - a))

/-! ### A `json.loads` model: total recursive-descent decoder over characters.

JSON whitespace, `null` / `true` / `false`, strings with the standard
escapes (including `\uXXXX`), strict RFC-8259 numbers (optional sign,
no leading zeros, optional fraction and exponent) as exact rationals,
arrays, and objects. Objects are built with `dictSet`, mirroring how the
Python decoder folds duplicate keys into one dict entry. A `none` result
models `json.JSONDecodeError`. Recursion is driven by a fuel counter that
the top-level entry point sets to more than the input length, which every
recursive call (each of which consumes at least one character) respects. -/

/-- JSON insignificant whitespace. -/
def isJsonWs (c : Char) : Bool :=
  c == ' ' || c == '\t' || c == '\n' || c == '\r'

/-- Drop leading JSON whitespace. -/
def skipJsonWs : List Char → List Char
  | [] => []
  | c :: rest => if isJsonWs c then skipJsonWs rest else c :: rest

/-- Value of a hexadecimal digit. -/
def hexDigitVal (c : Char) : Option Nat :=
  if 48 ≤ c.toNat && c.toNat ≤ 57 then some (c.toNat - 48)
  else if 97 ≤ c.toNat && c.toNat ≤ 102 then some (c.toNat - 87)
  else if 65 ≤ c.toNat && c.toNat ≤ 70 then some (c.toNat - 55)
  else none

/-- Value of a decimal digit. -/
def decDigitVal (c : Char) : Option Nat :=
  if 48 ≤ c.toNat && c.toNat ≤ 57 then some (c.toNat - 48) else none

/-- Longest prefix of decimal digits, as digit values, plus the rest. -/
def takeDigits : List Char → List Nat × List Char
  | [] => ([], [])
  | c :: rest =>
    match decDigitVal c with
    | some d => let (ds, r) := takeDigits rest; (d :: ds, r)
    | none => ([], c :: rest)

/-- The natural number denoted by a list of digit values. -/
def natOfDigits (ds : List Nat) : Nat :=
  ds.foldl (fun a d => a * 10 + d) 0

/-- Decode one escape sequence (the part after the backslash). -/
def decodeEscape : List Char → Option (Char × List Char)
  | [] => none
  | e :: rest =>
    if e == '"' then some ('"', rest)
    else if e == '\\' then some ('\\', rest)
    else if e == '/' then some ('/', rest)
    else if e == 'b' then some (Char.ofNat 8, rest)
    else if e == 'f' then some (Char.ofNat 12, rest)
    else if e == 'n' then some ('\n', rest)
    else if e == 'r' then some ('\r', rest)
    else if e == 't' then some ('\t', rest)
    else if e == 'u' then
      match rest with
      | a :: b :: c :: d :: rest2 =>
        match hexDigitVal a, hexDigitVal b, hexDigitVal c, hexDigitVal d with
        | some ha, some hb, some hc, some hd =>
          some (Char.ofNat (((ha * 16 + hb) * 16 + hc) * 16 + hd), rest2)
        | _, _, _, _ => none
      | _ => none
    else none

/-- Body of a JSON string, after the opening quote: the decoded characters
and the input after the closing quote. -/
def parseStrBody : Nat → List Char → Option (List Char × List Char)
  | 0, _ => none
  | _ + 1, [] => none
  | fuel + 1, c :: rest =>
    if c == '"' then some ([], rest)
    else if c == '\\' then
      match decodeEscape rest with
      | some (ch, rest2) =>
        match parseStrBody fuel rest2 with
        | some (cs, r) => some (ch :: cs, r)
        | none => none
      | none => none
    else if c.toNat < 32 then none
    else
      match parseStrBody fuel rest with
      | some (cs, r) => some (c :: cs, r)
      | none => none

/-- A JSON number (strict grammar), as an exact rational. -/
def parseNum (input : List Char) : Option (Rat × List Char) :=
  let signed : Bool × List Char :=
    match input with
    | c :: r => if c == '-' then (true, r) else (false, input)
    | [] => (false, [])
  let neg := signed.1
  let rest0 := signed.2
  match rest0 with
  | [] => none
  | c0 :: _ =>
    match decDigitVal c0 with
    | none => none
    | some _ =>
      let intPart := takeDigits rest0
      let intDs := intPart.1
      let rest1 := intPart.2
      if intDs.length > 1 && intDs.headD 0 == 0 then none
      else
        let step2 : Option (List Nat × List Char) :=
          match rest1 with
          | c2 :: r2 =>
            if c2 == '.' then
              match takeDigits r2 with
              | ([], _) => none
              | (ds, r3) => some (ds, r3)
            else some ([], rest1)
          | [] => some ([], rest1)
        match step2 with
        | none => none
        | some (fracDs, rest2) =>
          let step3 : Option (Int × List Char) :=
            match rest2 with
            | c3 :: r3 =>
              if c3 == 'e' || c3 == 'E' then
                let sgn : Int × List Char :=
                  match r3 with
                  | c4 :: r5 =>
                    if c4 == '+' then (1, r5)
                    else if c4 == '-' then (-1, r5)
                    else (1, r3)
                  | [] => (1, [])
                match takeDigits sgn.2 with
                | ([], _) => none
                | (eds, r6) => some (sgn.1 * (natOfDigits eds : Int), r6)
              else some (0, rest2)
            | [] => some (0, rest2)
          match step3 with
          | none => none
          | some (expv, rest3) =>
            let base : Rat :=
              (natOfDigits intDs : Rat) +
                (natOfDigits fracDs : Rat) / ((10 : Rat) ^ fracDs.length)
            let magnitude : Rat := base * (10 : Rat) ^ expv
            some (if neg then -magnitude else magnitude, rest3)

mutual

/-- One JSON value, preceded by optional whitespace. -/
def parseValue : Nat → List Char → Option (Json × List Char)
  | 0, _ => none
  | fuel + 1, input =>
    match skipJsonWs input with
    | [] => none
    | c :: rest =>
      if c == lbrace then parseObjBody fuel rest true []
      else if c == '[' then parseArrBody fuel rest true []
      else if c == '"' then
        match parseStrBody fuel rest with
        | some (cs, r) => some (Json.str (String.mk cs), r)
        | none => none
      else if c == 't' then
        match rest with
        | 'r' :: 'u' :: 'e' :: r => some (Json.bool true, r)
        | _ => none
      else if c == 'f' then
        match rest with
        | 'a' :: 'l' :: 's' :: 'e' :: r => some (Json.bool false, r)
        | _ => none
      else if c == 'n' then
        match rest with
        | 'u' :: 'l' :: 'l' :: r => some (Json.null, r)
        | _ => none
      else
        match parseNum (c :: rest) with
        | some (q, r) => some (Json.num q, r)
        | none => none

/-- Members of a JSON object, after the opening brace. `first` says whether
an immediate closing brace (empty object) is still allowed. -/
def parseObjBody : Nat → List Char → Bool → List (String × Json) →
    Option (Json × List Char)
  | 0, _, _, _ => none
  | fuel + 1, input, first, acc =>
    match skipJsonWs input with
    | [] => none
    | c :: rest =>
      if first && c == rbrace then some (Json.obj acc, rest)
      else if c == '"' then
        match parseStrBody fuel rest with
        | none => none
        | some (kcs, r1) =>
          match skipJsonWs r1 with
          | [] => none
          | c1 :: r2 =>
            if c1 == ':' then
              match parseValue fuel r2 with
              | none => none
              | some (v, r3) =>
                let acc2 := dictSet acc (String.mk kcs) v
                match skipJsonWs r3 with
                | [] => none
                | c2 :: r4 =>
                  if c2 == ',' then parseObjBody fuel r4 false acc2
                  else if c2 == rbrace then some (Json.obj acc2, r4)
                  else none
            else none
      else none

/-- Elements of a JSON array, after the opening bracket. -/
def parseArrBody : Nat → List Char → Bool → List Json →
    Option (Json × List Char)
  | 0, _, _, _ => none
  | fuel + 1, input, first, acc =>
    match skipJsonWs input with
    | [] => none
    | c :: rest =>
      if first && c == ']' then some (Json.arr acc.reverse, rest)
      else
        match parseValue fuel (c :: rest) with
        | none => none
        | some (v, r1) =>
          match skipJsonWs r1 with
          | [] => none
          | c1 :: r2 =>
            if c1 == ',' then parseArrBody fuel r2 false (v :: acc)
            else if c1 == ']' then some (Json.arr (v :: acc).reverse, r2)
            else none

end

/-- `json.loads`: decode a complete JSON document (trailing whitespace
allowed, trailing garbage refused); `none` models `json.JSONDecodeError`. -/
def jsonLoads (s : String) : Option Json :=
  match parseValue (s.length + 1) s.toList with
  | some (v, rest) =>
    match skipJsonWs rest with
    | [] => some v
    | _ :: _ => none
  | none => none

/-! ### RequestClassifier parsing (`LettaAgent.classify_request`) -/

/-- Fallback classification used when the reply holds no brace-delimited
substring (source lines 602-609). -/
def fallbackNoBraces : List (String × Json) :=
  [("request_type", Json.str "general_beauty"),
   ("beauty_concern", Json.str "general"),
   ("confidence", Json.num (1 / 2)),
   ("reasoning", Json.str "Could not parse classifier response"),
   ("suggested_agent", Json.str "beauty_general_agent")]

/-- Fallback classification used when decoding the substring raises
`json.JSONDecodeError` (source lines 610-618). -/
def fallbackJsonFailed : List (String × Json) :=
  [("request_type", Json.str "general_beauty"),
   ("beauty_concern", Json.str "general"),
   ("confidence", Json.num (1 / 2)),
   ("reasoning", Json.str "JSON parsing failed"),
   ("suggested_agent", Json.str "beauty_general_agent")]

/-- The parsing core of `classify_request` (source lines 593-621): slice the
reply from the first opening brace to the last closing brace, decode it,
fall back on decoder failure, then set `raw_response` to the full reply.
A successful decode of a slice that starts with an opening brace is always
an object, so the wildcard decode arm is unreachable in context. -/
def classify_parse (assistant_content : String) : List (String × Json) :=
  let classification :=
    match pyFindChar assistant_content lbrace with
    | none => fallbackNoBraces
    | some start_idx =>
      match pyRfindChar assistant_content rbrace with
      | none => fallbackNoBraces
      | some last_idx =>
        match jsonLoads (pySlice assistant_content start_idx (last_idx + 1)) with
        | some (Json.obj kvs) => kvs
        | _ => fallbackJsonFailed
  dictSet classification "raw_response" (Json.str assistant_content)

/-! ### Concern model and dispatch table -/

/-- The `BeautyConcern` enumeration (source lines 15-23). -/
inductive BeautyConcern where
  | acne
  | aging
  | sensitivity
  | dryness
  | oiliness
  | hyperpigmentation
  | general
deriving DecidableEq

/-- The `.value` string of each enumeration member. -/
def BeautyConcern.value : BeautyConcern → String
  | .acne => "acne"
  | .aging => "aging"
  | .sensitivity => "sensitivity"
  | .dryness => "dryness"
  | .oiliness => "oiliness"
  | .hyperpigmentation => "hyperpigmentation"
  | .general => "general"

/-- The `BeautyConcern(s)` constructor call: `none` models `ValueError`. -/
def beautyConcernOfString (s : String) : Option BeautyConcern :=
  if s == "acne" then some .acne
  else if s == "aging" then some .aging
  else if s == "sensitivity" then some .sensitivity
  else if s == "dryness" then some .dryness
  else if s == "oiliness" then some .oiliness
  else if s == "hyperpigmentation" then some .hyperpigmentation
  else if s == "general" then some .general
  else none

/-- The `try BeautyConcern(s) except ValueError: BeautyConcern.GENERAL`
coercion of `process_beauty_request` (source lines 944-947). -/
def coerceToBeautyConcern (s : String) : BeautyConcern :=
  (beautyConcernOfString s).getD BeautyConcern.general

/-- Concern extraction of `process_beauty_request` step 2 (source lines
943-947): read `beauty_concern` with default `"general"`, then coerce;
a non-string value also raises `ValueError` and so coerces to general. -/
def concernOfClassification (classification : List (String × Json)) : BeautyConcern :=
  match dictGet classification "beauty_concern" with
  | some (Json.str s) => coerceToBeautyConcern s
  | some _ => BeautyConcern.general
  | none => coerceToBeautyConcern "general"

/-- The specialist agent name `f"beauty_{concern.value}_agent"` used by
`get_or_create_concern_agent` (source line 304). -/
def specialistAgentName (concern : BeautyConcern) : String :=
  "beauty_" ++ concern.value ++ "_agent"

/-- Is `needle` a prefix of `hay` (over characters)? -/
def listStarts : List Char → List Char → Bool
  | [], _ => true
  | _ :: _, [] => false
  | a :: as, b :: bs => a == b && listStarts as bs

/-- Is `needle` a contiguous sublist of `hay`? Models Python `needle in hay`
on strings. -/
def listSub (needle : List Char) : List Char → Bool
  | [] => listStarts needle []
  | c :: rest => listStarts needle (c :: rest) || listSub needle rest

/-- Python `needle in hay` for strings. -/
def strContainsSub (hay needle : String) : Bool :=
  listSub needle.toList hay.toList

/-- ASCII whitespace as stripped by Python `str.strip()` (the inputs in
play are ASCII). -/
def isPyWs (c : Char) : Bool :=
  c == ' ' || c == '\t' || c == '\n' || c == '\r' ||
    c == Char.ofNat 11 || c == Char.ofNat 12

/-- Drop leading Python whitespace. -/
def dropLeadingWs : List Char → List Char
  | [] => []
  | c :: rest => if isPyWs c then dropLeadingWs rest else c :: rest

/-- Python `s.strip()`. -/
def pyStrip (s : String) : String :=
  String.mk ((dropLeadingWs (dropLeadingWs s.toList).reverse).reverse)

/-- Python `s.lower()` (ASCII case mapping; the keyword table is ASCII). -/
def pyLower (s : String) : String :=
  String.mk (s.toList.map Char.toLower)

/-- The keyword table of `_detect_concern_type` (source lines 797-804),
in source order. -/
def concernKeywords : List (String × List String) :=
  [("acne", ["acne", "breakout", "pimple", "blackhead", "whitehead", "blemish",
             "spot", "comedone"]),
   ("aging", ["aging", "wrinkle", "fine line", "anti-aging", "mature", "collagen",
              "elasticity", "sagging"]),
   ("sensitivity", ["sensitive", "irritation", "redness", "reactive", "allergic",
                    "gentle", "hypoallergenic"]),
   ("dryness", ["dry", "dehydrated", "moisture", "hydration", "flaky", "tight",
                "parched"]),
   ("oiliness", ["oily", "greasy", "shine", "sebum", "t-zone", "combination",
                 "large pore"]),
   ("hyperpigmentation", ["dark spot", "pigmentation", "melasma", "age spot",
                          "sun spot", "discoloration", "uneven tone"])]

/-- `_detect_concern_type` (source lines 792-811): lowercase the query and
return the first concern whose keyword list has a substring match, else
`None`. -/
def _detect_concern_type (query : String) : Option String :=
  let query_lower := pyLower query
  (concernKeywords.find? (fun p => p.2.any (fun kw => strContainsSub query_lower kw))).map
    (fun p => p.1)

/-! ### Pipeline environment and per-stage operations

Each external boundary (one Letta chat exchange with a given role, one
retriever query) is a function in the environment; `Except.error msg`
models an exception with text `msg` raised at that boundary, and an
`Except.ok` chat result carries the assistant message contents in order.
The resolved agent ids that a successful lookup-or-create would return are
also environment data. -/

/-- Environment of external collaborators for one request. -/
structure FlowEnv where
  classifierChat : String → Except String (List String)
  rephraserChat : String → Except String (List String)
  summarizerChat : String → Except String (List String)
  specialistChat : BeautyConcern → String → Except String (List String)
  askAgent : String → String → Except String String
  summarizerAgentId : String
  specialistAgentId : BeautyConcern → String

/-- `response["messages"][0].get("content", "")` after the truthiness check
on `"messages"` (empty reply list yields the empty string). -/
def firstContent (msgs : List String) : String :=
  match msgs with
  | [] => ""
  | c :: _ => c

/-- The rephrase prompt (source lines 681-685). -/
def rephrasePrompt (original_query : String) : String :=
  "Please rephrase this beauty query to optimize it for RAG search:\n\nOriginal Query: \"" ++
    original_query ++
    "\"\n\nProvide the optimized query that will retrieve the most relevant beauty and skincare information."

/-- The summarize prompt (source lines 709-717). -/
def summarizePrompt (rag_response original_query : String) : String :=
  "Please summarize and provide context for this beauty advice response:\n\nOriginal User Query: \"" ++
    original_query ++
    "\"\n\nRAG Response to Summarize:\n" ++
    rag_response ++
    "\n\nCreate a well-structured summary with actionable recommendations and helpful context.\nMake sure to keep things under 5 lines, very short and condensed"

/-- The classification prompt (source lines 574-580). -/
def classificationPrompt (user_query : String) : String :=
  "\nPlease classify this beauty-related request:\n\nUser Query: \"" ++
    user_query ++
    "\"\n\nUse the reasoning_step tool first to analyze the request, then provide your classification in the specified JSON format.\n"

/-- `LettaAgent.rephrase_query` (source lines 676-702): any exception inside
the try block falls back to the original query; an empty message list keeps
the fallback; otherwise the first message content is stripped. -/
def rephrase_query (env : FlowEnv) (original_query : String) : String :=
  match env.rephraserChat (rephrasePrompt original_query) with
  | Except.error _ => original_query
  | Except.ok msgs =>
    match msgs with
    | [] => original_query
    | c :: _ => pyStrip c

/-- `LettaAgent.summarize_response` (source lines 704-744): on success the
record carries the (possibly empty) first message content as summary plus
the summarizer agent id; on any exception it carries the raw answer as
summary plus an `error` entry. -/
def summarize_response (env : FlowEnv) (rag_response original_query : String) :
    List (String × Json) :=
  match env.summarizerChat (summarizePrompt rag_response original_query) with
  | Except.ok msgs =>
    [("summary", Json.str (firstContent msgs)),
     ("original_query", Json.str original_query),
     ("original_rag_response", Json.str rag_response),
     ("summarizer_agent_id", Json.str env.summarizerAgentId)]
  | Except.error e =>
    [("summary", Json.str rag_response),
     ("original_query", Json.str original_query),
     ("original_rag_response", Json.str rag_response),
     ("error", Json.str ("Summarization failed: " ++ e))]

/-- The record returned by `get_rag_response` (source line 1021). -/
structure RagRecord where
  answer : String
  query : String
  concern_type : Option String
deriving DecidableEq

/-- Python `concern_type or "general"` (source line 1020): `None` and the
empty string are falsy. -/
def orGeneral (concern_type : Option String) : String :=
  match concern_type with
  | none => "general"
  | some s => if s == "" then "general" else s

/-- `get_rag_response` (source lines 1018-1021), paired with the list of
`RAGService.ask_agent` invocations it performs, each as
`(question, category)`. -/
def get_rag_response (env : FlowEnv) (query : String) (concern_type : Option String) :
    Except String RagRecord × List (String × String) :=
  let category := orGeneral concern_type
  match env.askAgent query category with
  | Except.ok answer => (Except.ok ⟨answer, query, concern_type⟩, [(query, category)])
  | Except.error e => (Except.error e, [(query, category)])

/-- The `get_rag_response` record as the dict the source builds. -/
def jsonOfOptStr : Option String → Json
  | none => Json.null
  | some s => Json.str s

/-- Dict view of a `RagRecord`. -/
def RagRecord.toJson (r : RagRecord) : Json :=
  Json.obj [("answer", Json.str r.answer), ("query", Json.str r.query),
            ("concern_type", jsonOfOptStr r.concern_type)]

/-- Step 2 of `search_beauty_products` (source lines 882-883): keep a truthy
concern hint, otherwise run the local keyword detector on the original
query; no default is forced when nothing matches. -/
def searchConcernTag (query : String) (concern_hint : Option String) : Option String :=
  match concern_hint with
  | none => _detect_concern_type query
  | some s => if s == "" then _detect_concern_type query else some s

/-- `search_beauty_products` (source lines 874-932): rephrase, tag, retrieve
with the rephrased query, summarize, assemble; on any exception retry the
retrieval once with the original query and no concern tag, and if that also
fails surface a single error. The second component collects the retriever
invocations in order. Inside the try block only the first retrieval can
raise: rephrasing and summarization swallow their own failures and the
remaining statements are pure. -/
def search_beauty_products (env : FlowEnv) (query : String)
    (concern_hint : Option String) :
    Except String (List (String × Json)) × List (String × String) :=
  let rephrased_query := rephrase_query env query
  let concern_type := searchConcernTag query concern_hint
  let r1 := get_rag_response env rephrased_query concern_type
  match r1.1 with
  | Except.ok rag_response =>
    let summarized_response := summarize_response env rag_response.answer query
    (Except.ok
      [("original_query", Json.str query),
       ("rephrased_query", Json.str rephrased_query),
       ("rag_response", rag_response.toJson),
       ("final_response", (dictGet summarized_response "summary").getD Json.null),
       ("pipeline_metadata", Json.obj
          [("rephrasing_used", Json.bool (rephrased_query != query)),
           ("rag_concern_type", jsonOfOptStr rag_response.concern_type),
           ("summarization_agent_id",
             (dictGet summarized_response "summarizer_agent_id").getD Json.null),
           ("has_error", Json.bool (dictHasKey summarized_response "error"))]),
       ("full_pipeline_data", Json.obj
          [("rag_response", rag_response.toJson),
           ("summarized_response", Json.obj summarized_response)])],
     r1.2)
  | Except.error e =>
    let r2 := get_rag_response env query none
    match r2.1 with
    | Except.ok rag_response =>
      (Except.ok
        [("original_query", Json.str query),
         ("rephrased_query", Json.str query),
         ("rag_response", rag_response.toJson),
         ("final_response", Json.str rag_response.answer),
         ("pipeline_metadata", Json.obj
            [("rephrasing_used", Json.bool false),
             ("rag_concern_type", jsonOfOptStr rag_response.concern_type),
             ("fallback_used", Json.bool true),
             ("error", Json.str e)])],
       r1.2 ++ r2.2)
    | Except.error fallback_error =>
      (Except.error
        ("Failed to search beauty products: " ++ e ++ ". Fallback also failed: " ++
          fallback_error),
       r1.2 ++ r2.2)

/-- `LettaAgent.classify_request` (source lines 569-624) including its
transport boundary: an exception while resolving or chatting with the
classifier agent is re-raised wrapped; a successful reply is parsed by
`classify_parse` and never raises. -/
def classify_request (env : FlowEnv) (user_query : String) :
    Except String (List (String × Json)) :=
  match env.classifierChat (classificationPrompt user_query) with
  | Except.error e => Except.error ("Failed to classify request: " ++ e)
  | Except.ok msgs => Except.ok (classify_parse (firstContent msgs))

/-- `LettaAgent.process_with_specialized_agent` (source lines 626-674): one
chat with the concern specialist; a transport failure is re-raised wrapped;
the ReAct prompt text is elided as no claim depends on it. -/
def process_with_specialized_agent (env : FlowEnv) (user_query : String)
    (concern : BeautyConcern) (classification_context : List (String × Json)) :
    Except String (List (String × Json)) :=
  match env.specialistChat concern user_query with
  | Except.error e => Except.error ("Failed to process with specialized agent: " ++ e)
  | Except.ok msgs =>
    Except.ok
      [("agent_id", Json.str (env.specialistAgentId concern)),
       ("concern", Json.str concern.value),
       ("response", Json.obj [("messages", Json.arr (msgs.map Json.str))]),
       ("context", Json.obj classification_context)]

/-- `process_beauty_request` (source lines 936-963): classify, coerce the
concern, dispatch to the specialist; any stage exception is re-raised
wrapped, so there is no partial result. -/
def process_beauty_request (env : FlowEnv) (user_query : String) :
    Except String (List (String × Json)) :=
  match classify_request env user_query with
  | Except.error e => Except.error ("Failed to process beauty request: " ++ e)
  | Except.ok classification =>
    let concern := concernOfClassification classification
    match process_with_specialized_agent env user_query concern classification with
    | Except.error e => Except.error ("Failed to process beauty request: " ++ e)
    | Except.ok specialist_response =>
      Except.ok
        [("classification", Json.obj classification),
         ("specialist_response", Json.obj specialist_response),
         ("pipeline", Json.str "multi_agent_react")]

/-! ### Agent-identity cache (`LettaAgent._agent_cache`)

The cache is a `Dict[str, str]` from agent name to agent id (source line
41). The backend models the Letta server: the list of already-provisioned
agents that `list_agents` reports, and the id it assigns when an agent of a
given name is created. Each operation returns its result, the new cache,
and the gateway calls it performs. -/

/-- The agent backend as seen through the client. -/
structure AgentBackend where
  agents : List (String × String)
  newId : String → String

/-- One gateway invocation. -/
inductive GatewayCall where
  | listAgents
  | createAgent (name : String)
  | deleteAgent (agent_id : String)
deriving DecidableEq

/-- The agent-id cache. -/
abbrev AgentCache := List (String × String)

/-- `LettaAgent.create_agent` (source lines 107-146): provision the agent
and cache its id under its name. -/
def create_agent (backend : AgentBackend) (cache : AgentCache) (name : String) :
    String × AgentCache × List GatewayCall :=
  let agent_id := backend.newId name
  (agent_id, insertS cache name agent_id, [GatewayCall.createAgent name])

/-- `LettaAgent.delete_agent` (source lines 170-178): deletes on the server
and returns `True`; the cache is not touched. -/
def delete_agent (cache : AgentCache) (agent_id : String) :
    Bool × AgentCache × List GatewayCall :=
  (true, cache, [GatewayCall.deleteAgent agent_id])

/-- The lookup-or-create pattern shared by the classifier, concern,
rephraser and summarizer agents (source lines 244-567): return the cached
id if present; otherwise list the server agents and cache the id of a name
match; otherwise create (which also caches). -/
def get_or_create_named_agent (backend : AgentBackend) (cache : AgentCache)
    (agent_name : String) : String × AgentCache × List GatewayCall :=
  match lookupS cache agent_name with
  | some agent_id => (agent_id, cache, [])
  | none =>
    match lookupS backend.agents agent_name with
    | some agent_id =>
      (agent_id, insertS cache agent_name agent_id, [GatewayCall.listAgents])
    | none =>
      let agent_id := backend.newId agent_name
      (agent_id, insertS cache agent_name agent_id,
       [GatewayCall.listAgents, GatewayCall.createAgent agent_name])

/-- `get_or_create_classifier_agent` (source lines 244-300). -/
def get_or_create_classifier_agent (backend : AgentBackend) (cache : AgentCache) :
    String × AgentCache × List GatewayCall :=
  get_or_create_named_agent backend cache "beauty_classifier_agent"

/-- `get_or_create_concern_agent` (source lines 302-443); the per-concern
instruction table is total over the enumeration. -/
def get_or_create_concern_agent (backend : AgentBackend) (cache : AgentCache)
    (concern : BeautyConcern) : String × AgentCache × List GatewayCall :=
  get_or_create_named_agent backend cache (specialistAgentName concern)

/-- `get_or_create_rephraser_agent` (source lines 445-496). -/
def get_or_create_rephraser_agent (backend : AgentBackend) (cache : AgentCache) :
    String × AgentCache × List GatewayCall :=
  get_or_create_named_agent backend cache "beauty_query_rephraser_agent"

/-- `get_or_create_summarizer_agent` (source lines 498-567). -/
def get_or_create_summarizer_agent (backend : AgentBackend) (cache : AgentCache) :
    String × AgentCache × List GatewayCall :=
  get_or_create_named_agent backend cache "beauty_response_summarizer_agent"

/-! ### Concrete environments used by witnesses and counterexamples -/

/-- Every stage succeeds. -/
def envAllOk : FlowEnv :=
  { classifierChat := fun _ => Except.ok ["a plain text verdict"]
    rephraserChat := fun _ => Except.ok ["hydrating moisturizer dry skin barrier repair"]
    summarizerChat := fun _ => Except.ok ["a short summary"]
    specialistChat := fun _ _ => Except.ok ["specialist advice"]
    askAgent := fun _ _ => Except.ok "retrieved answer"
    summarizerAgentId := "summarizer-1"
    specialistAgentId := fun concern => "specialist-" ++ concern.value }

/-- The rephraser reply has one assistant message whose content is empty. -/
def envEmptyRephrase : FlowEnv :=
  { envAllOk with rephraserChat := fun _ => Except.ok [""] }

/-- The rephraser chat raises. -/
def envRephraseFail : FlowEnv :=
  { envAllOk with rephraserChat := fun _ => Except.error "connection refused" }

/-- The summarizer chat raises. -/
def envSummarizeFail : FlowEnv :=
  { envAllOk with summarizerChat := fun _ => Except.error "summarizer down" }

/-- The classifier chat raises. -/
def envClassifierFail : FlowEnv :=
  { envAllOk with classifierChat := fun _ => Except.error "letta unreachable" }

/-- The retriever fails for every tagged category but answers untagged
(`"general"`) queries; the rephraser also raises, so the rephrased query is
the original one. -/
def envRetrievalRetry : FlowEnv :=
  { envAllOk with
    rephraserChat := fun _ => Except.error "rephraser down"
    askAgent := fun _ category =>
      if category == "general" then Except.ok "retry answer"
      else Except.error "vector store down" }

/-- Every retriever call fails. -/
def envRetrievalDown : FlowEnv :=
  { envAllOk with askAgent := fun _ _ => Except.error "vector store down" }

/-! ### Claim C1 — classifier parse fallback -/

/-- Claim C1 (amended). For every classifier reply string, `classify_request`
parsing is total (never raises): if the reply holds no opening or no closing
brace the default verdict (request_type `general_beauty`, concern `general`,
confidence `0.5`, diagnostic reasoning, suggested agent
`beauty_general_agent`) is returned with the raw reply retained under
`raw_response`; if the brace-delimited substring is malformed JSON the
default verdict (with the `JSON parsing failed` diagnostic) is likewise
returned with the raw reply retained; but a syntactically valid JSON object
that is missing required keys is NOT replaced by the default verdict: the
decoded record is returned as-is, with only `raw_response` added. -/
theorem claimC1_classify_parse_fallbacks (content : String) :
    (pyFindChar content lbrace = none →
      classify_parse content =
        dictSet fallbackNoBraces "raw_response" (Json.str content)) ∧
    (pyRfindChar content rbrace = none →
      classify_parse content =
        dictSet fallbackNoBraces "raw_response" (Json.str content)) ∧
    (∀ s e, pyFindChar content lbrace = some s → pyRfindChar content rbrace = some e →
      jsonLoads (pySlice content s (e + 1)) = none →
      classify_parse content =
        dictSet fallbackJsonFailed "raw_response" (Json.str content)) ∧
    (∀ s e kvs, pyFindChar content lbrace = some s →
      pyRfindChar content rbrace = some e →
      jsonLoads (pySlice content s (e + 1)) = some (Json.obj kvs) →
      classify_parse content = dictSet kvs "raw_response" (Json.str content)) := by
  refine ⟨?_, ?_, ?_, ?_⟩
  · intro h
    unfold classify_parse
    rw [h]
  · intro h
    unfold classify_parse
    cases hf : pyFindChar content lbrace with
    | none => rfl
    | some s => rw [h]
  · intro s e hs he hj
    simp only [classify_parse, hs, he, hj]
  · intro s e kvs hs he hj
    simp only [classify_parse, hs, he, hj]

/-- Claim C1 counterexample to the claim as stated: the reply consisting of
an empty JSON object is decoded successfully yet is missing every required
key; `classify_request` returns it as-is (only `raw_response` is added)
rather than the default verdict, whose `request_type` would be
`general_beauty`. -/
theorem claimC1_counterexample :
    classify_parse "\x7b\x7d" = [("raw_response", Json.str "\x7b\x7d")] ∧
    dictGet (classify_parse "\x7b\x7d") "request_type" = none := by
  exact ⟨rfl, rfl⟩

/-- Claim C1 witness: the amended theorem applied to a braceless reply. -/
theorem claimC1_witness :
    pyFindChar "plain text reply" lbrace = none ∧
    classify_parse "plain text reply" =
      dictSet fallbackNoBraces "raw_response" (Json.str "plain text reply") :=
  ⟨rfl, (claimC1_classify_parse_fallbacks "plain text reply").1 rfl⟩

/-! ### Claim C2 — total concern dispatch -/

/-- Claim C2. Any concern string outside the seven-member enumeration is
coerced to `general` before lookup (also when it arrives via the
`beauty_concern` field of a classification record), and so resolves to the
`beauty_general_agent` specialist; moreover the concern-to-specialist name
mapping is total: every input string resolves to one of the seven fixed
specialist agent names. -/
theorem claimC2_unknown_concern_resolves_general (s : String) :
    (s ∉ ["acne", "aging", "sensitivity", "dryness", "oiliness",
          "hyperpigmentation", "general"] →
      coerceToBeautyConcern s = BeautyConcern.general ∧
      concernOfClassification [("beauty_concern", Json.str s)] =
        BeautyConcern.general ∧
      specialistAgentName (coerceToBeautyConcern s) = "beauty_general_agent") ∧
    specialistAgentName (coerceToBeautyConcern s) ∈
      ["beauty_acne_agent", "beauty_aging_agent", "beauty_sensitivity_agent",
       "beauty_dryness_agent", "beauty_oiliness_agent",
       "beauty_hyperpigmentation_agent", "beauty_general_agent"] := by
  constructor
  · intro h
    simp only [List.mem_cons, List.not_mem_nil, or_false, not_or] at h
    obtain ⟨h1, h2, h3, h4, h5, h6, h7⟩ := h
    have hn : beautyConcernOfString s = none := by
      simp [beautyConcernOfString, h1, h2, h3, h4, h5, h6, h7]
    refine ⟨?_, ?_, ?_⟩
    · simp [coerceToBeautyConcern, hn]
    · simp [concernOfClassification, dictGet, coerceToBeautyConcern, hn]
    · simp [coerceToBeautyConcern, hn, specialistAgentName, BeautyConcern.value]
  · cases hc : coerceToBeautyConcern s <;> decide

/-- Claim C2 witness: the theorem applied to the out-of-enumeration concern
string `banana`. -/
theorem claimC2_witness :
    coerceToBeautyConcern "banana" = BeautyConcern.general ∧
    concernOfClassification [("beauty_concern", Json.str "banana")] =
      BeautyConcern.general ∧
    specialistAgentName (coerceToBeautyConcern "banana") = "beauty_general_agent" :=
  (claimC2_unknown_concern_resolves_general "banana").1 (by decide)

/-- An absent concern tag fans out to the `"general"` retriever category. -/
theorem orGeneral_none : orGeneral none = "general" := rfl

/-! ### Claim C3 — Flow A single retry on retrieval failure -/

/-- Claim C3. In Flow A, if the retrieval on the rephrased query raises,
`search_beauty_products` retries exactly once, with the original
non-rephrased query and no concern tag (so the retriever sees the
`"general"` fan-out category): when the retry succeeds the flow returns the
retry's answer as `final_response` and does not raise, and the retriever
was invoked exactly twice; when the retry also raises, the whole flow fails
with a single error naming both failures. -/
theorem claimC3_flowA_retry (env : FlowEnv) (query : String)
    (concern_hint : Option String) (e : String)
    (hfail : env.askAgent (rephrase_query env query)
      (orGeneral (searchConcernTag query concern_hint)) = Except.error e) :
    (∀ ans, env.askAgent query "general" = Except.ok ans →
      (search_beauty_products env query concern_hint).1 =
        Except.ok
          [("original_query", Json.str query),
           ("rephrased_query", Json.str query),
           ("rag_response", RagRecord.toJson ⟨ans, query, none⟩),
           ("final_response", Json.str ans),
           ("pipeline_metadata", Json.obj
              [("rephrasing_used", Json.bool false),
               ("rag_concern_type", Json.null),
               ("fallback_used", Json.bool true),
               ("error", Json.str e)])] ∧
      (search_beauty_products env query concern_hint).2 =
        [(rephrase_query env query, orGeneral (searchConcernTag query concern_hint)),
         (query, "general")]) ∧
    (∀ e2, env.askAgent query "general" = Except.error e2 →
      (search_beauty_products env query concern_hint).1 =
        Except.error ("Failed to search beauty products: " ++ e ++
          ". Fallback also failed: " ++ e2)) := by
  constructor
  · intro ans hok
    constructor <;>
      simp [search_beauty_products, get_rag_response, orGeneral_none, hfail, hok,
        RagRecord.toJson, jsonOfOptStr]
  · intro e2 herr
    simp [search_beauty_products, get_rag_response, orGeneral_none, hfail, herr]

/-- Claim C3 witness: under `envRetrievalRetry` the tagged retrieval for
`acne help` fails, the untagged retry succeeds, and the flow returns the
retry's answer after exactly two retriever calls. -/
theorem claimC3_witness :
    (search_beauty_products envRetrievalRetry "acne help" none).1 =
      Except.ok
        [("original_query", Json.str "acne help"),
         ("rephrased_query", Json.str "acne help"),
         ("rag_response", RagRecord.toJson ⟨"retry answer", "acne help", none⟩),
         ("final_response", Json.str "retry answer"),
         ("pipeline_metadata", Json.obj
            [("rephrasing_used", Json.bool false),
             ("rag_concern_type", Json.null),
             ("fallback_used", Json.bool true),
             ("error", Json.str "vector store down")])] ∧
    (search_beauty_products envRetrievalRetry "acne help" none).2 =
      [("acne help", "acne"), ("acne help", "general")] := by
  have h :=
    (claimC3_flowA_retry envRetrievalRetry "acne help" none "vector store down" rfl).1
      "retry answer" rfl
  exact ⟨h.1, h.2⟩

/-! ### Claim C4 — rephrase fallback -/

/-- Claim C4 (amended). `rephrase_query` falls back to the original query
exactly when the transport fails or the reply carries no assistant message;
a reply whose first message is present is returned stripped, even when that
content is empty — so the result is not always non-empty and an empty-string
reply is not replaced by the original query. -/
theorem claimC4_rephrase_fallbacks (env : FlowEnv) (q : String) :
    (∀ e, env.rephraserChat (rephrasePrompt q) = Except.error e →
      rephrase_query env q = q) ∧
    (env.rephraserChat (rephrasePrompt q) = Except.ok [] →
      rephrase_query env q = q) ∧
    (∀ c rest, env.rephraserChat (rephrasePrompt q) = Except.ok (c :: rest) →
      rephrase_query env q = pyStrip c) := by
  refine ⟨?_, ?_, ?_⟩
  · intro e h
    unfold rephrase_query
    rw [h]
  · intro h
    unfold rephrase_query
    rw [h]
  · intro c rest h
    unfold rephrase_query
    rw [h]

/-- Claim C4 counterexample to the claim as stated: when the rephraser
reply has one assistant message with empty content, `rephrase_query`
returns the empty string — not a non-empty string, and not the original
query. -/
theorem claimC4_counterexample :
    rephrase_query envEmptyRephrase "best serum" = "" ∧
    rephrase_query envEmptyRephrase "best serum" ≠ "best serum" := by
  exact ⟨rfl, by decide⟩

/-- Claim C4 witness: the amended theorem applied to a transport failure,
where the original query is indeed returned unchanged. -/
theorem claimC4_witness :
    rephrase_query envRephraseFail "best serum" = "best serum" :=
  (claimC4_rephrase_fallbacks envRephraseFail "best serum").1 "connection refused" rfl

/-! ### Claim C5 — summarize fallback record -/

/-- Claim C5 (amended). When the summarization stage fails,
`summarize_response` returns a record whose `summary` equals the input
answer text unchanged — the caller always receives some answer — but the
record carries no `fallback_used` flag: the fallback is signalled by an
`error` entry holding the failure description (which Flow A surfaces as the
`has_error` metadata bit). -/
theorem claimC5_summarize_failure (env : FlowEnv) (text q e : String)
    (h : env.summarizerChat (summarizePrompt text q) = Except.error e) :
    summarize_response env text q =
      [("summary", Json.str text),
       ("original_query", Json.str q),
       ("original_rag_response", Json.str text),
       ("error", Json.str ("Summarization failed: " ++ e))] ∧
    dictGet (summarize_response env text q) "summary" = some (Json.str text) ∧
    dictGet (summarize_response env text q) "fallback_used" = none := by
  unfold summarize_response
  rw [h]
  exact ⟨rfl, rfl, rfl⟩

/-- Claim C5 counterexample to the claim as stated: on a concrete
summarizer failure the returned record has no `fallback_used` entry at all
(so in particular none equal to `true`), though `summary` does retain the
answer text. -/
theorem claimC5_counterexample :
    dictGet (summarize_response envSummarizeFail "the answer" "the question")
      "fallback_used" = none ∧
    dictGet (summarize_response envSummarizeFail "the answer" "the question")
      "summary" = some (Json.str "the answer") := by
  exact ⟨rfl, rfl⟩

/-- Claim C5 witness: the amended theorem applied to a concrete failing
summarizer environment. -/
theorem claimC5_witness :
    summarize_response envSummarizeFail "ans" "qst" =
      [("summary", Json.str "ans"),
       ("original_query", Json.str "qst"),
       ("original_rag_response", Json.str "ans"),
       ("error", Json.str ("Summarization failed: summarizer down"))] :=
  (claimC5_summarize_failure envSummarizeFail "ans" "qst" "summarizer down" rfl).1

/-! ### Claim C6 — Flow B classification transport failure is fatal -/

/-- Claim C6. In Flow B, if the classification stage raises a transport
error (as opposed to a parse failure, which `classify_parse` absorbs),
`process_beauty_request` raises — it returns an error, not any partial
result — with the classifier failure wrapped in the orchestrator error. -/
theorem claimC6_flowB_classifier_failure_fatal (env : FlowEnv) (q e : String)
    (h : env.classifierChat (classificationPrompt q) = Except.error e) :
    process_beauty_request env q =
      Except.error
        ("Failed to process beauty request: " ++ ("Failed to classify request: " ++ e)) := by
  unfold process_beauty_request classify_request
  rw [h]

/-- Claim C6 witness: a concrete classifier transport failure makes the
whole Flow B call fail with the wrapped error. -/
theorem claimC6_witness :
    process_beauty_request envClassifierFail "help me" =
      Except.error
        "Failed to process beauty request: Failed to classify request: letta unreachable" :=
  claimC6_flowB_classifier_failure_fatal envClassifierFail "help me" "letta unreachable" rfl

/-! ### Claim C7 — local keyword concern tagging in Flow A -/

/-- The first retriever invocation of Flow A always carries the rephrased
query and the fan-out category of the locally assigned concern tag. -/
theorem search_first_retriever_call (env : FlowEnv) (q : String)
    (hint : Option String) :
    (search_beauty_products env q hint).2.head? =
      some (rephrase_query env q, orGeneral (searchConcernTag q hint)) := by
  cases h1 : env.askAgent (rephrase_query env q) (orGeneral (searchConcernTag q hint)) with
  | ok a => simp [search_beauty_products, get_rag_response, h1]
  | error e =>
    cases h2 : env.askAgent q (orGeneral none) with
    | ok a => simp [search_beauty_products, get_rag_response, h1, h2]
    | error e2 => simp [search_beauty_products, get_rag_response, h1, h2]

/-- Claim C7. With no concern hint, Flow A assigns the concern tag by a
local keyword match on the original query (no agent call is involved:
`_detect_concern_type` is a pure function of the query): the query
`best moisturizer for dry skin` is tagged `dryness`, and that tag reaches
the retrieval call that follows; when no keyword of any concern matches,
the tag is left unset rather than defaulted to `general`. -/
theorem claimC7_local_keyword_tagging :
    _detect_concern_type "best moisturizer for dry skin" = some "dryness" ∧
    searchConcernTag "best moisturizer for dry skin" none = some "dryness" ∧
    (∀ env : FlowEnv,
      (search_beauty_products env "best moisturizer for dry skin" none).2.head? =
        some (rephrase_query env "best moisturizer for dry skin", "dryness")) ∧
    (∀ q, _detect_concern_type q = none → searchConcernTag q none = none) := by
  refine ⟨rfl, rfl, ?_, ?_⟩
  · intro env
    exact search_first_retriever_call env "best moisturizer for dry skin" none
  · intro q h
    simp [searchConcernTag, h]

/-- Claim C7 witness: the no-match branch applied to a keyword-free query,
plus the tagged first retrieval under a concrete environment. -/
theorem claimC7_witness :
    _detect_concern_type "hello world" = none ∧
    searchConcernTag "hello world" none = none ∧
    (search_beauty_products envAllOk "best moisturizer for dry skin" none).2.head? =
      some ("hydrating moisturizer dry skin barrier repair", "dryness") := by
  refine ⟨rfl, claimC7_local_keyword_tagging.2.2.2 "hello world" rfl, ?_⟩
  exact claimC7_local_keyword_tagging.2.2.1 envAllOk

/-! ### Claim C8 — Flow A result metadata -/

/-- The `pipeline_metadata` entry of a Flow A result. -/
def pipelineMeta (r : Except String (List (String × Json))) : Option Json :=
  match r with
  | Except.ok d => dictGet d "pipeline_metadata"
  | Except.error _ => none

/-- Lookup inside the `pipeline_metadata` object of a Flow A result. -/
def metaLookup (r : Except String (List (String × Json))) (k : String) : Option Json :=
  match pipelineMeta r with
  | some (Json.obj m) => dictGet m k
  | _ => none

/-- Claim C8 (amended). On the Flow A success path the result metadata has
`rephrasing_used = (rephrased_query != query)` as claimed, and the
summarization-stage fallback signal is propagated — but as the `has_error`
bit (presence of the `error` entry in the summarizer record), not as a
`fallback_used` flag: no `fallback_used` key is present on the success
path. A `fallback_used` key (always `true`) appears only in the
retrieval-retry result. -/
theorem claimC8_metadata_assembly (env : FlowEnv) (q : String)
    (hint : Option String) :
    (∀ ans, env.askAgent (rephrase_query env q) (orGeneral (searchConcernTag q hint)) =
        Except.ok ans →
      ∃ m, pipelineMeta (search_beauty_products env q hint).1 = some (Json.obj m) ∧
        dictGet m "rephrasing_used" = some (Json.bool (rephrase_query env q != q)) ∧
        dictGet m "has_error" =
          some (Json.bool (dictHasKey (summarize_response env ans q) "error")) ∧
        dictGet m "fallback_used" = none) ∧
    (∀ e ans2, env.askAgent (rephrase_query env q) (orGeneral (searchConcernTag q hint)) =
        Except.error e →
      env.askAgent q "general" = Except.ok ans2 →
      ∃ m, pipelineMeta (search_beauty_products env q hint).1 = some (Json.obj m) ∧
        dictGet m "fallback_used" = some (Json.bool true)) := by
  constructor
  · intro ans hok
    refine
      ⟨[("rephrasing_used", Json.bool (rephrase_query env q != q)),
        ("rag_concern_type", jsonOfOptStr (searchConcernTag q hint)),
        ("summarization_agent_id",
          (dictGet (summarize_response env ans q) "summarizer_agent_id").getD Json.null),
        ("has_error", Json.bool (dictHasKey (summarize_response env ans q) "error"))],
       ?_, rfl, rfl, rfl⟩
    simp [search_beauty_products, get_rag_response, hok, pipelineMeta, dictGet,
      jsonOfOptStr]
  · intro e ans2 herr hok2
    refine
      ⟨[("rephrasing_used", Json.bool false),
        ("rag_concern_type", Json.null),
        ("fallback_used", Json.bool true),
        ("error", Json.str e)],
       ?_, rfl⟩
    simp [search_beauty_products, get_rag_response, orGeneral_none, herr, hok2,
      pipelineMeta, dictGet, jsonOfOptStr]

/-- Claim C8 counterexample to the claim as stated: under a concrete
environment whose summarization stage fails (so its fallback is used), the
success-path metadata contains no `fallback_used` entry at all — the
fallback signal only appears as `has_error = true`. -/
theorem claimC8_counterexample :
    dictHasKey (summarize_response envSummarizeFail "retrieved answer" "some question")
      "error" = true ∧
    metaLookup (search_beauty_products envSummarizeFail "some question" none).1
      "fallback_used" = none ∧
    metaLookup (search_beauty_products envSummarizeFail "some question" none).1
      "has_error" = some (Json.bool true) := by
  exact ⟨rfl, rfl, rfl⟩

/-- Claim C8 witness: the amended theorem applied to a fully successful
concrete run, where rephrasing changed the query. -/
theorem claimC8_witness :
    ∃ m, pipelineMeta (search_beauty_products envAllOk "my query" none).1 =
        some (Json.obj m) ∧
      dictGet m "rephrasing_used" = some (Json.bool true) ∧
      dictGet m "fallback_used" = none := by
  obtain ⟨m, h1, h2, h3, h4⟩ :=
    (claimC8_metadata_assembly envAllOk "my query" none).1 "retrieved answer" rfl
  exact ⟨m, h1, h2, h4⟩

/-! ### Claim C9 — append-only agent-identity cache -/

/-- A cache write never makes a previously present key disappear. -/
theorem lookupS_insertS_isSome (d : List (String × String)) (k2 v k : String)
    (h : (lookupS d k).isSome = true) :
    (lookupS (insertS d k2 v) k).isSome = true := by
  induction d with
  | nil => simp [lookupS] at h
  | cons p rest ih =>
    obtain ⟨a, b⟩ := p
    simp only [lookupS] at h
    by_cases h2 : a == k2 <;> by_cases h3 : a == k <;>
      simp_all [insertS, lookupS]

/-- Claim C9. The agent-identity cache is append-only and keyed by agent
name: deleting an agent leaves the cache unchanged; a lookup-or-create on a
name that is already cached returns the cached identity with no gateway
call and no cache change; and neither a lookup-or-create nor a direct agent
creation ever removes an existing cache entry. -/
theorem claimC9_cache_append_only (backend : AgentBackend) (cache : AgentCache)
    (name k agent_id : String) :
    ((delete_agent cache agent_id).2.1 = cache) ∧
    (lookupS cache name = some agent_id →
      get_or_create_named_agent backend cache name = (agent_id, cache, [])) ∧
    ((lookupS cache k).isSome = true →
      (lookupS (get_or_create_named_agent backend cache name).2.1 k).isSome = true) ∧
    ((lookupS cache k).isSome = true →
      (lookupS (create_agent backend cache name).2.1 k).isSome = true) := by
  refine ⟨rfl, ?_, ?_, ?_⟩
  · intro h
    unfold get_or_create_named_agent
    rw [h]
  · intro h
    unfold get_or_create_named_agent
    cases hc : lookupS cache name with
    | some i => simpa using h
    | none =>
      cases hb : lookupS backend.agents name with
      | some i => simpa using lookupS_insertS_isSome cache name i k h
      | none =>
        simpa using lookupS_insertS_isSome cache name (backend.newId name) k h
  · intro h
    unfold create_agent
    simpa using lookupS_insertS_isSome cache name (backend.newId name) k h

/-- Claim C9 witness: on a concrete cache holding the classifier identity,
deletion leaves the cache unchanged and the lookup-or-create returns the
cached identity with no gateway call. -/
theorem claimC9_witness :
    lookupS [("beauty_classifier_agent", "agent-1")] "beauty_classifier_agent" =
      some "agent-1" ∧
    get_or_create_named_agent ⟨[], fun n => n ++ "-id"⟩
        [("beauty_classifier_agent", "agent-1")] "beauty_classifier_agent" =
      ("agent-1", [("beauty_classifier_agent", "agent-1")], []) ∧
    (delete_agent [("beauty_classifier_agent", "agent-1")] "agent-1").2.1 =
      [("beauty_classifier_agent", "agent-1")] := by
  have h :=
    claimC9_cache_append_only ⟨[], fun n => n ++ "-id"⟩
      [("beauty_classifier_agent", "agent-1")] "beauty_classifier_agent"
      "beauty_classifier_agent" "agent-1"
  exact ⟨rfl, h.2.1 rfl, h.1⟩

/-! ### Claim C10 — absent concern tag fans out to the general category -/

/-- Claim C10. When the concern tag handed to `get_rag_response` is absent
(`None` or the empty string), the knowledge retriever is invoked with the
category `"general"` — never with a null category — while the returned
record's `concern_type` field still echoes the absent input tag. -/
theorem claimC10_absent_tag_general_category (env : FlowEnv) (q : String)
    (ct : Option String) (h : ct = none ∨ ct = some "") :
    (get_rag_response env q ct).2 = [(q, "general")] ∧
    (∀ ans, env.askAgent q "general" = Except.ok ans →
      (get_rag_response env q ct).1 = Except.ok ⟨ans, q, ct⟩) := by
  have hg : orGeneral ct = "general" := by
    rcases h with h | h <;> subst h <;> rfl
  constructor
  · cases henv : env.askAgent q "general" <;>
      simp [get_rag_response, hg, henv]
  · intro ans hok
    simp [get_rag_response, hg, hok]

/-- Claim C10 witness: a concrete absent tag reaches the retriever as
`"general"` and is echoed as absent in the record. -/
theorem claimC10_witness :
    (get_rag_response envAllOk "anything" none).2 = [("anything", "general")] ∧
    (get_rag_response envAllOk "anything" none).1 =
      Except.ok ⟨"retrieved answer", "anything", none⟩ := by
  have h := claimC10_absent_tag_general_category envAllOk "anything" none (Or.inl rfl)
  exact ⟨h.1, h.2 "retrieved answer" rfl⟩
